import Mathlib

/-!
Verification of the RemoteCameraCalibration repository core
(`src/calibration/board.py` and `src/calibration/calibration_base.py`)
against its natural-language specification.

The Python code is shallowly embedded: Python floats are modelled by exact
rationals (`ℚ`), Python `int(...)` truncation by `pyInt`, Python integer
floor division `//` by `int_floordiv`, Python exceptions by `Except`,
images (2-D uint8 numpy arrays) by pixel functions `ℤ → ℤ → ℕ` together
with their dimensions, and dynamically typed setter arguments by `PyValue`.
-/

namespace RemoteCameraCalibration

/-- Python `int(x)` applied to a number: truncation toward zero. -/
def pyInt (q : ℚ) : ℤ := if q < 0 then ⌈q⌉ else ⌊q⌋

/-- Python `a // b` on integers: floor division (modelled exactly via `ℚ`). -/
def int_floordiv (a b : ℤ) : ℤ := ⌊(a : ℚ) / (b : ℚ)⌋

/-- A Python-call-succeeded predicate for `Except`-modelled functions. -/
def ExceptOk {ε α : Type} (x : Except ε α) : Prop := ∃ a, x = Except.ok a

/-- `CalibrationBoard.PAPER_SIZES`: paper format name → (width mm, height mm). -/
def PAPER_SIZES : List (String × ℚ × ℚ) :=
  [("A4", (210, 297)), ("A3", (297, 420)), ("A5", (148, 210)),
   ("Letter", (216, 279)), ("Legal", (216, 356))]

/-- Keys of `ArucoBasedBoard.ARUCO_DICTS` (the values are opaque OpenCV
dictionary constants, irrelevant to the validation logic). -/
def ARUCO_DICTS : List String :=
  ["4x4_50", "5x5_100", "5x5_250", "6x6_1000", "7x7_1000"]

/-- `px_per_mm = self.dpi / 25.4`. -/
def px_per_mm (dpi : ℕ) : ℚ := (dpi : ℚ) / (254 / 10)

/-- `canvas_w_px = int(paper_w_mm * px_per_mm)`. -/
def canvas_w_px (dpi : ℕ) (paper_w_mm : ℚ) : ℤ := pyInt (paper_w_mm * px_per_mm dpi)

/-- `canvas_h_px = int(paper_h_mm * px_per_mm)`. -/
def canvas_h_px (dpi : ℕ) (paper_h_mm : ℚ) : ℤ := pyInt (paper_h_mm * px_per_mm dpi)

/-- `board_w_px = int(self.squares_x * self.square_length_mm * px_per_mm)`. -/
def board_w_px (squares_x : ℕ) (square_length_mm : ℚ) (dpi : ℕ) : ℤ :=
  pyInt ((squares_x : ℚ) * square_length_mm * px_per_mm dpi)

/-- `board_h_px = int(self.squares_y * self.square_length_mm * px_per_mm)`. -/
def board_h_px (squares_y : ℕ) (square_length_mm : ℚ) (dpi : ℕ) : ℤ :=
  pyInt ((squares_y : ℚ) * square_length_mm * px_per_mm dpi)

/-- `CalibrationBoard._compute_canvas_and_scale`, returning
`(canvas_w_px, canvas_h_px, scaled_w, scaled_h)`.  The produced canvas is the
all-white (255) array of shape `(canvas_h_px, canvas_w_px)`; its dimensions
are returned here and its pixel content is modelled in `generate`.  A Python
`ZeroDivisionError` (division by a zero-pixel board dimension) is modelled as
`Except.error`. -/
def compute_canvas_and_scale (squares_x squares_y : ℕ) (square_length_mm : ℚ)
    (dpi : ℕ) (paper_w_mm paper_h_mm : ℚ) : Except String (ℤ × ℤ × ℤ × ℤ) :=
  let cw := canvas_w_px dpi paper_w_mm
  let ch := canvas_h_px dpi paper_h_mm
  let bw := board_w_px squares_x square_length_mm dpi
  let bh := board_h_px squares_y square_length_mm dpi
  if bw = 0 then Except.error "ZeroDivisionError: division by zero"
  else
    let scale : ℚ := (cw : ℚ) / (bw : ℚ)
    let scaled_h := pyInt ((bh : ℚ) * scale)
    if ch < scaled_h then
      if bh = 0 then Except.error "ZeroDivisionError: division by zero"
      else Except.ok (cw, ch, pyInt ((bw : ℚ) * ((ch : ℚ) / (bh : ℚ))), ch)
    else Except.ok (cw, ch, cw, scaled_h)

/-- `cv2.resize(src, (dst_w, dst_h), interpolation=cv2.INTER_NEAREST)`:
destination pixel `(i, j)` samples the source at
`(min(floor(i*src_h/dst_h), src_h-1), min(floor(j*src_w/dst_w), src_w-1))`. -/
def nearestResize (src : ℤ → ℤ → ℕ) (src_w src_h dst_w dst_h : ℤ) : ℤ → ℤ → ℕ :=
  fun i j =>
    src (min ⌊(i : ℚ) * (src_h : ℚ) / (dst_h : ℚ)⌋ (src_h - 1))
        (min ⌊(j : ℚ) * (src_w : ℚ) / (dst_w : ℚ)⌋ (src_w - 1))

/-- `CalibrationBoard.generate`: compute canvas and footprint, render the
variant bitmap (`gen_board`, given footprint width and height), resample it
with nearest-neighbor to the footprint, and write it into the all-white
canvas at the centering offsets.  Returns canvas width, height and the canvas
pixel function. -/
def CalibrationBoard.generate (gen_board : ℤ → ℤ → (ℤ → ℤ → ℕ)) (squares_x squares_y : ℕ)
    (square_length_mm : ℚ) (dpi : ℕ) (paper_w_mm paper_h_mm : ℚ) :
    Except String (ℤ × ℤ × (ℤ → ℤ → ℕ)) :=
  match compute_canvas_and_scale squares_x squares_y square_length_mm dpi
      paper_w_mm paper_h_mm with
  | Except.error e => Except.error e
  | Except.ok (cw, ch, board_w, board_h) =>
    let board_img := gen_board board_w board_h
    let resized := nearestResize board_img board_w board_h board_w board_h
    let offset_x := int_floordiv (cw - board_w) 2
    let offset_y := int_floordiv (ch - board_h) 2
    Except.ok (cw, ch, fun i j =>
      if offset_y ≤ i ∧ i < offset_y + board_h ∧ offset_x ≤ j ∧ j < offset_x + board_w
      then resized (i - offset_y) (j - offset_x)
      else 255)

/-- `Checkerboard` base pattern `((np.indices((sy, sx)).sum(axis=0) % 2) * 255)`:
cell `(i, j)` is `0` when `i + j` is even and `255` otherwise. -/
def checker_base (i j : ℤ) : ℕ := if (i + j) % 2 = 0 then 0 else 255

/-- `Checkerboard._generate_board_image`: the parity pattern of shape
`(squares_y, squares_x)` resampled (nearest-neighbor) to the target size. -/
def Checkerboard.generate_board_image (squares_x squares_y : ℕ)
    (width_px height_px : ℤ) : ℤ → ℤ → ℕ :=
  nearestResize checker_base (squares_x : ℤ) (squares_y : ℤ) width_px height_px

/-- `Checkerboard.generate` (the inherited `CalibrationBoard.generate`). -/
def Checkerboard.generate (squares_x squares_y : ℕ) (square_length_mm : ℚ)
    (dpi : ℕ) (paper_w_mm paper_h_mm : ℚ) :
    Except String (ℤ × ℤ × (ℤ → ℤ → ℕ)) :=
  CalibrationBoard.generate (Checkerboard.generate_board_image squares_x squares_y)
    squares_x squares_y square_length_mm dpi paper_w_mm paper_h_mm

/-- `radius = int(0.25 * min(width_px / self.squares_x, height_px / self.squares_y))`. -/
def circle_radius (squares_x squares_y : ℕ) (width_px height_px : ℤ) : ℤ :=
  pyInt ((25 / 100 : ℚ) *
    min ((width_px : ℚ) / (squares_x : ℚ)) ((height_px : ℚ) / (squares_y : ℚ)))

/-- The exact abscissa computed by `CircleGridBoard._generate_board_image`
before `int(...)` truncation: `(x + 0.5 + 0.5 * (y % 2)) * width_px / squares_x`
in asymmetric mode, `(x + 0.5) * width_px / squares_x` otherwise. -/
def circle_center_x (asymmetric : Bool) (squares_x : ℕ) (width_px : ℤ)
    (x y : ℕ) : ℚ :=
  if asymmetric then
    ((x : ℚ) + 1 / 2 + 1 / 2 * ((y % 2 : ℕ) : ℚ)) * (width_px : ℚ) / (squares_x : ℚ)
  else ((x : ℚ) + 1 / 2) * (width_px : ℚ) / (squares_x : ℚ)

/-- The exact ordinate computed by `CircleGridBoard._generate_board_image`
before `int(...)` truncation: `(y + 0.5) * height_px / squares_y`. -/
def circle_center_y (squares_y : ℕ) (height_px : ℤ) (y : ℕ) : ℚ :=
  ((y : ℚ) + 1 / 2) * (height_px : ℚ) / (squares_y : ℚ)

/-- The circles actually drawn by `CircleGridBoard._generate_board_image`
(double loop over `y < squares_y`, `x < squares_x`): each is
`(cx, cy, radius)`, and a circle is drawn only when
`0 <= cx < width_px and 0 <= cy < height_px`. -/
def CircleGridBoard.circles (asymmetric : Bool) (squares_x squares_y : ℕ)
    (width_px height_px : ℤ) : List (ℤ × ℤ × ℤ) :=
  (List.range squares_y).flatMap (fun y =>
    (List.range squares_x).filterMap (fun x =>
      let cx := pyInt (circle_center_x asymmetric squares_x width_px x y)
      let cy := pyInt (circle_center_y squares_y height_px y)
      if 0 ≤ cx ∧ cx < width_px ∧ 0 ≤ cy ∧ cy < height_px then
        some (cx, cy, circle_radius squares_x squares_y width_px height_px)
      else none))

/-- A dynamically typed Python value, as far as the validating setters
inspect it: an `int`, a `float`, or a `str`. -/
inductive PyValue : Type
  | int (n : ℤ)
  | float (q : ℚ)
  | str (s : String)
  deriving DecidableEq

/-- Python `float(value)` on a numeric value (`None` on a non-number). -/
def PyValue.as_float : PyValue → Option ℚ
  | PyValue.int n => some (n : ℚ)
  | PyValue.float q => some q
  | PyValue.str _ => none

/-- Setter `squares_x`: `isinstance(value, int)` and `value >= 2`. -/
def set_squares_x : PyValue → Except String ℤ
  | PyValue.int n =>
    if n < 2 then Except.error "squares_x must be an integer not less than 2"
    else Except.ok n
  | _ => Except.error "squares_x must be an integer not less than 2"

/-- Setter `squares_y`: `isinstance(value, int)` and `value >= 2`. -/
def set_squares_y : PyValue → Except String ℤ
  | PyValue.int n =>
    if n < 2 then Except.error "squares_y must be an integer not less than 2"
    else Except.ok n
  | _ => Except.error "squares_y must be an integer not less than 2"

/-- Setter `square_length_mm`: `isinstance(value, (int, float))` and
`value > 0`; stores `float(value)`. -/
def set_square_length_mm : PyValue → Except String ℚ
  | PyValue.int n =>
    if n ≤ 0 then Except.error "square_length_mm must be a positive number"
    else Except.ok (n : ℚ)
  | PyValue.float q =>
    if q ≤ 0 then Except.error "square_length_mm must be a positive number"
    else Except.ok q
  | _ => Except.error "square_length_mm must be a positive number"

/-- Setter `dpi`: `isinstance(value, int)` and `value >= 50`. -/
def set_dpi : PyValue → Except String ℤ
  | PyValue.int n =>
    if n < 50 then Except.error "dpi must be an integer not less than 50"
    else Except.ok n
  | _ => Except.error "dpi must be an integer not less than 50"

/-- Setter `paper_size`: `isinstance(value, str)` and membership in
`PAPER_SIZES`. -/
def set_paper_size : PyValue → Except String String
  | PyValue.str s =>
    if (PAPER_SIZES.lookup s).isSome then Except.ok s
    else Except.error "paper_size must be one of the PAPER_SIZES keys"
  | _ => Except.error "paper_size must be one of the PAPER_SIZES keys"

/-- Setter `aruco_dict_name`: membership in `ARUCO_DICTS` (a non-string is
never a member of the string-keyed dict, hence rejected). -/
def set_aruco_dict_name : PyValue → Except String String
  | PyValue.str s =>
    if s ∈ ARUCO_DICTS then Except.ok s
    else Except.error "aruco_dict_name must be one of the ARUCO_DICTS keys"
  | _ => Except.error "aruco_dict_name must be one of the ARUCO_DICTS keys"

/-- Setter `marker_length_mm`: `isinstance(value, (int, float))` and
`value > 0`; stores `float(value)`. -/
def set_marker_length_mm : PyValue → Except String ℚ
  | PyValue.int n =>
    if n ≤ 0 then Except.error "marker_length_mm must be a positive number"
    else Except.ok (n : ℚ)
  | PyValue.float q =>
    if q ≤ 0 then Except.error "marker_length_mm must be a positive number"
    else Except.ok q
  | _ => Except.error "marker_length_mm must be a positive number"

/-- Setter `marker_length_ratio`: `isinstance(value, (int, float))` and
`0 < value <= 1`; stores `float(value)`. -/
def set_marker_length_ratio : PyValue → Except String ℚ
  | PyValue.int n =>
    if 0 < n ∧ n ≤ 1 then Except.ok (n : ℚ)
    else Except.error "marker_length_ratio must be a number in the range (0, 1]"
  | PyValue.float q =>
    if 0 < q ∧ q ≤ 1 then Except.ok q
    else Except.error "marker_length_ratio must be a number in the range (0, 1]"
  | _ => Except.error "marker_length_ratio must be a number in the range (0, 1]"

/-- `CharucoBoard.__init__`: runs the validating setters in assignment order
(base fields, then `aruco_dict_name`, then `marker_length_mm`); the first
failing setter raises, so construction succeeds only if all validate. -/
def CharucoBoard.construct (squares_x squares_y square_length_mm
    marker_length_mm dpi paper_size aruco_dict_name : PyValue) :
    Except String (ℤ × ℤ × ℚ × ℤ × String × String × ℚ) := do
  let sx ← set_squares_x squares_x
  let sy ← set_squares_y squares_y
  let sl ← set_square_length_mm square_length_mm
  let d ← set_dpi dpi
  let ps ← set_paper_size paper_size
  let dn ← set_aruco_dict_name aruco_dict_name
  let ml ← set_marker_length_mm marker_length_mm
  pure (sx, sy, sl, d, ps, dn, ml)

/-- `ArucoBoard.__init__`: base fields, then `aruco_dict_name`, then
`marker_length_ratio`. -/
def ArucoBoard.construct (squares_x squares_y square_length_mm
    marker_length_ratio dpi paper_size aruco_dict_name : PyValue) :
    Except String (ℤ × ℤ × ℚ × ℤ × String × String × ℚ) := do
  let sx ← set_squares_x squares_x
  let sy ← set_squares_y squares_y
  let sl ← set_square_length_mm square_length_mm
  let d ← set_dpi dpi
  let ps ← set_paper_size paper_size
  let dn ← set_aruco_dict_name aruco_dict_name
  let r ← set_marker_length_ratio marker_length_ratio
  pure (sx, sy, sl, d, ps, dn, r)

/-- Claim-side domain: an integer value at least `k`. -/
def int_ge (k : ℤ) (v : PyValue) : Prop := ∃ n : ℤ, v = PyValue.int n ∧ k ≤ n

/-- Claim-side domain: a strictly positive number (int or float). -/
def positive_number (v : PyValue) : Prop :=
  ∃ q : ℚ, v.as_float = some q ∧ 0 < q

/-- Claim-side domain: a number strictly within `(0, 1]`. -/
def ratio_in_unit (v : PyValue) : Prop :=
  ∃ q : ℚ, v.as_float = some q ∧ 0 < q ∧ q ≤ 1

/-- Claim-side domain: a paper format name from the fixed table. -/
def paper_in_table (v : PyValue) : Prop :=
  ∃ s : String, v = PyValue.str s ∧ (PAPER_SIZES.lookup s).isSome

/-- Claim-side domain: an aruco dictionary name from the fixed table. -/
def dict_in_table (v : PyValue) : Prop :=
  ∃ s : String, v = PyValue.str s ∧ s ∈ ARUCO_DICTS

/-- Claim-side domain for `CharucoBoard` construction (spec §4.2 / §8). -/
def CharucoBoard.spec_domain (squares_x squares_y square_length_mm
    marker_length_mm dpi paper_size aruco_dict_name : PyValue) : Prop :=
  int_ge 2 squares_x ∧ int_ge 2 squares_y ∧ positive_number square_length_mm ∧
  positive_number marker_length_mm ∧ int_ge 50 dpi ∧
  paper_in_table paper_size ∧ dict_in_table aruco_dict_name

/-- Claim-side domain for `ArucoBoard` construction (spec §4.2 / §8). -/
def ArucoBoard.spec_domain (squares_x squares_y square_length_mm
    marker_length_ratio dpi paper_size aruco_dict_name : PyValue) : Prop :=
  int_ge 2 squares_x ∧ int_ge 2 squares_y ∧ positive_number square_length_mm ∧
  ratio_in_unit marker_length_ratio ∧ int_ge 50 dpi ∧
  paper_in_table paper_size ∧ dict_in_table aruco_dict_name

/-- A filesystem entry matched by the glob pattern in
`CameraBaseCalibrator._check_images_size`: its path, whether it is a regular
file, and the decoded image size `(width, height)` if `cv2.imread` succeeds. -/
structure FSEntry : Type where
  path : String
  is_file : Bool
  image : Option (ℕ × ℕ)
  deriving DecidableEq

/-- The `for img_path in image_paths` loop of `_check_images_size`: skip
non-files, skip unreadable images, and append each read size in order. -/
def read_sizes : List FSEntry → List (ℕ × ℕ)
  | [] => []
  | e :: rest =>
    if e.is_file then
      match e.image with
      | some sz => sz :: read_sizes rest
      | none => read_sizes rest
    else read_sizes rest

/-- Claim-side: the sizes of the successfully read images, in glob order. -/
def valid_sizes (entries : List FSEntry) : List (ℕ × ℕ) :=
  entries.filterMap (fun e => if e.is_file then e.image else none)

/-- Claim-side: the glob matches that are regular files and readable images,
in glob order (what the spec says `_check_images_size` returns). -/
def valid_entries (entries : List FSEntry) : List FSEntry :=
  entries.filter (fun e => e.is_file && e.image.isSome)

/-- `CameraBaseCalibrator._check_images_size` on the glob-matched entries:
hard error when nothing matches, when nothing is readable, or when a read
size differs from the first read size; otherwise returns the reference size
and `image_paths` (the full glob-matched list, exactly as the source does). -/
def check_images_size (entries : List FSEntry) :
    Except String ((ℕ × ℕ) × List FSEntry) :=
  if entries.isEmpty then Except.error "No images found with the given pattern"
  else
    match read_sizes entries with
    | [] => Except.error "No valid images found for calibration"
    | ref :: rest =>
      match (ref :: rest).find? (fun sz => decide (sz ≠ ref)) with
      | some _ => Except.error "Image has different resolution than the reference"
      | none => Except.ok (ref, entries)

/-- The calibration result mapping (keys to numeric data); its exact content
is irrelevant to the persistence dispatch. -/
def CalibrationResult : Type := List (String × List ℚ)

/-- Python exception kinds raised by the calibrator. -/
inductive CalibError : Type
  | runtimeError (msg : String)
  | valueError (msg : String)
  deriving DecidableEq

/-- Which serializer `save_calibration_result` dispatched to. -/
inductive SaveFormat : Type
  | npz
  | json
  | txt
  deriving DecidableEq

/-- Python `str.lower()` on an extension string (ASCII, which is exact for
the file extensions the dispatch compares against). -/
def py_lower (s : String) : String := String.mk (s.data.map Char.toLower)

/-- `CameraBaseCalibrator.save_calibration_result`: precondition check on the
held result, then dispatch on `Path(output_path).suffix.lower()` (the suffix
is supplied here directly; path-string parsing is outside the model). -/
def save_calibration_result (calibration_result : Option CalibrationResult)
    (suffix : String) : Except CalibError SaveFormat :=
  match calibration_result with
  | none => Except.error (CalibError.runtimeError
      "No calibration data available. Run calibrate() first.")
  | some _ =>
    let ext := py_lower suffix
    if ext = ".npz" then Except.ok SaveFormat.npz
    else if ext = ".json" then Except.ok SaveFormat.json
    else if ext = ".txt" then Except.ok SaveFormat.txt
    else Except.error (CalibError.valueError
      ("Unsupported file extension: " ++ ext ++ ". Use .npz, .json or .txt"))

/-- A concrete result used to instantiate witnesses. -/
def example_result : CalibrationResult := [("ret", [1 / 2])]

/-- A 6-DOF gripper pose (position plus orientation), as in the spec. -/
def GripperPose : Type := ℚ × ℚ × ℚ × ℚ × ℚ × ℚ

/-- A hand-eye result: rotation matrix and translation vector. -/
def HandEyeTransform : Type := List (List ℚ) × List ℚ

/-- Modelled from the spec: `handeye_calibrate` lives in the
`pattern_based`/`marker_based` modules, which are not present under `src/`
(only its callers are).  Spec §4.5: given a live calibration result and a
pose sequence whose length must exactly match the image set matched by the
current glob pattern, delegate to the external hand-eye solver; no result or
a count mismatch is a hard error, and the solver is always handed the full,
untruncated sequences. -/
def handeye_calibrate (calibration_result : Option CalibrationResult)
    (gripper_poses : List GripperPose) (matched_images : List String)
    (solver : List GripperPose → List String → HandEyeTransform) :
    Except CalibError HandEyeTransform :=
  match calibration_result with
  | none => Except.error (CalibError.runtimeError
      "No calibration data available. Run calibrate() or load_calibration_result() first.")
  | some _ =>
    if gripper_poses.length = matched_images.length then
      Except.ok (solver gripper_poses matched_images)
    else Except.error (CalibError.valueError
      "Number of gripper poses must match number of matched images")

/-! ### Helper lemmas -/

theorem pyInt_of_nonneg {q : ℚ} (h : 0 ≤ q) : pyInt q = ⌊q⌋ := by
  unfold pyInt
  rw [if_neg (not_lt.mpr h)]

theorem pyInt_nonneg {q : ℚ} (h : 0 ≤ q) : 0 ≤ pyInt q := by
  rw [pyInt_of_nonneg h]
  exact Int.floor_nonneg.mpr h

theorem px_per_mm_nonneg (dpi : ℕ) : 0 ≤ px_per_mm dpi := by
  unfold px_per_mm
  positivity

theorem canvas_w_px_nonneg (dpi : ℕ) {pw : ℚ} (h : 0 ≤ pw) :
    0 ≤ canvas_w_px dpi pw :=
  pyInt_nonneg (mul_nonneg h (px_per_mm_nonneg dpi))

theorem canvas_h_px_nonneg (dpi : ℕ) {ph : ℚ} (h : 0 ≤ ph) :
    0 ≤ canvas_h_px dpi ph :=
  pyInt_nonneg (mul_nonneg h (px_per_mm_nonneg dpi))

theorem paper_sizes_bounds {p : String} {pw ph : ℚ}
    (h : PAPER_SIZES.lookup p = some (pw, ph)) : 148 ≤ pw ∧ 210 ≤ ph := by
  simp only [PAPER_SIZES, List.lookup] at h
  repeat' split at h
  all_goals simp_all
  all_goals obtain ⟨h1, h2⟩ := h
  all_goals subst h1
  all_goals subst h2
  all_goals norm_num

/-- `_compute_canvas_and_scale` with nonzero board pixel dimensions, as a
branch on whether the width-scaled height overflows the canvas height. -/
theorem compute_canvas_and_scale_eq {sx sy dpi : ℕ} {s pw ph : ℚ}
    (hbw : board_w_px sx s dpi ≠ 0) (hbh : board_h_px sy s dpi ≠ 0) :
    compute_canvas_and_scale sx sy s dpi pw ph =
      if canvas_h_px dpi ph < pyInt ((board_h_px sy s dpi : ℚ) *
          ((canvas_w_px dpi pw : ℚ) / (board_w_px sx s dpi : ℚ))) then
        Except.ok (canvas_w_px dpi pw, canvas_h_px dpi ph,
          pyInt ((board_w_px sx s dpi : ℚ) *
            ((canvas_h_px dpi ph : ℚ) / (board_h_px sy s dpi : ℚ))),
          canvas_h_px dpi ph)
      else
        Except.ok (canvas_w_px dpi pw, canvas_h_px dpi ph, canvas_w_px dpi pw,
          pyInt ((board_h_px sy s dpi : ℚ) *
            ((canvas_w_px dpi pw : ℚ) / (board_w_px sx s dpi : ℚ)))) := by
  simp only [compute_canvas_and_scale]
  rw [if_neg hbw]
  by_cases h : canvas_h_px dpi ph < pyInt ((board_h_px sy s dpi : ℚ) *
      ((canvas_w_px dpi pw : ℚ) / (board_w_px sx s dpi : ℚ)))
  · rw [if_pos h, if_pos h, if_neg hbh]
  · rw [if_neg h, if_neg h]

/-- In the height-bound branch, the recomputed width fits the canvas width. -/
theorem scaled_w_le {bw bh cw ch : ℤ} (hbw : 1 ≤ bw) (hbh : 1 ≤ bh)
    (hch : 0 ≤ ch)
    (hlt : ch < pyInt ((bh : ℚ) * ((cw : ℚ) / (bw : ℚ)))) :
    pyInt ((bw : ℚ) * ((ch : ℚ) / (bh : ℚ))) ≤ cw := by
  have hbwQ : (0 : ℚ) < (bw : ℚ) := by exact_mod_cast lt_of_lt_of_le one_pos hbw
  have hbhQ : (0 : ℚ) < (bh : ℚ) := by exact_mod_cast lt_of_lt_of_le one_pos hbh
  have hchQ : (0 : ℚ) ≤ (ch : ℚ) := by exact_mod_cast hch
  have hcwQ : (0 : ℚ) ≤ (cw : ℚ) := by
    by_contra hneg
    push_neg at hneg
    have : (bh : ℚ) * ((cw : ℚ) / (bw : ℚ)) < 0 :=
      mul_neg_of_pos_of_neg hbhQ (div_neg_of_neg_of_pos hneg hbwQ)
    have h0 : pyInt ((bh : ℚ) * ((cw : ℚ) / (bw : ℚ))) ≤ 0 := by
      unfold pyInt
      rw [if_pos this]
      exact Int.ceil_le.mpr (by exact_mod_cast le_of_lt this)
    omega
  have h1 : (ch : ℚ) < (bh : ℚ) * ((cw : ℚ) / (bw : ℚ)) := by
    rw [pyInt_of_nonneg (by positivity)] at hlt
    calc (ch : ℚ) < (⌊(bh : ℚ) * ((cw : ℚ) / (bw : ℚ))⌋ : ℚ) := by exact_mod_cast hlt
      _ ≤ _ := Int.floor_le _
  have h2 : (ch : ℚ) * (bw : ℚ) < (bh : ℚ) * (cw : ℚ) := by
    rw [mul_comm (bh : ℚ) _, div_mul_eq_mul_div, lt_div_iff₀ hbwQ] at h1
    linarith [h1]
  have h3 : (bw : ℚ) * ((ch : ℚ) / (bh : ℚ)) < (cw : ℚ) := by
    rw [mul_div_assoc', div_lt_iff₀ hbhQ]
    nlinarith [h2]
  rw [pyInt_of_nonneg (by positivity)]
  exact le_of_lt (Int.floor_lt.mpr h3)

/-- Full success characterisation of `_compute_canvas_and_scale` when both
natural board pixel dimensions are at least one pixel. -/
theorem compute_canvas_and_scale_spec {sx sy dpi : ℕ} {s pw ph : ℚ}
    (hpw : 0 ≤ pw) (hph : 0 ≤ ph)
    (hbw : 1 ≤ board_w_px sx s dpi) (hbh : 1 ≤ board_h_px sy s dpi) :
    ∃ sw sh : ℤ,
      compute_canvas_and_scale sx sy s dpi pw ph =
        Except.ok (canvas_w_px dpi pw, canvas_h_px dpi ph, sw, sh) ∧
      0 ≤ sw ∧ 0 ≤ sh ∧
      sw ≤ canvas_w_px dpi pw ∧ sh ≤ canvas_h_px dpi ph ∧
      (sw = canvas_w_px dpi pw ∨ sh = canvas_h_px dpi ph) ∧
      (if pyInt ((board_h_px sy s dpi : ℚ) *
            ((canvas_w_px dpi pw : ℚ) / (board_w_px sx s dpi : ℚ))) ≤
          canvas_h_px dpi ph then
        sw = canvas_w_px dpi pw ∧
          sh = pyInt ((board_h_px sy s dpi : ℚ) *
            ((canvas_w_px dpi pw : ℚ) / (board_w_px sx s dpi : ℚ)))
      else
        sw = pyInt ((board_w_px sx s dpi : ℚ) *
            ((canvas_h_px dpi ph : ℚ) / (board_h_px sy s dpi : ℚ))) ∧
          sh = canvas_h_px dpi ph) := by
  have hcw0 : 0 ≤ canvas_w_px dpi pw := canvas_w_px_nonneg dpi hpw
  have hch0 : 0 ≤ canvas_h_px dpi ph := canvas_h_px_nonneg dpi hph
  have hbwQ : (0 : ℚ) < (board_w_px sx s dpi : ℚ) := by
    exact_mod_cast lt_of_lt_of_le one_pos hbw
  have hbhQ : (0 : ℚ) < (board_h_px sy s dpi : ℚ) := by
    exact_mod_cast lt_of_lt_of_le one_pos hbh
  have hcwQ : (0 : ℚ) ≤ (canvas_w_px dpi pw : ℚ) := by exact_mod_cast hcw0
  have hchQ : (0 : ℚ) ≤ (canvas_h_px dpi ph : ℚ) := by exact_mod_cast hch0
  rw [compute_canvas_and_scale_eq (by omega) (by omega)]
  by_cases h : canvas_h_px dpi ph < pyInt ((board_h_px sy s dpi : ℚ) *
      ((canvas_w_px dpi pw : ℚ) / (board_w_px sx s dpi : ℚ)))
  · rw [if_pos h]
    refine ⟨_, _, rfl, pyInt_nonneg (by positivity), hch0,
      scaled_w_le hbw hbh hch0 h, le_refl _, Or.inr rfl, ?_⟩
    rw [if_neg (not_le.mpr h)]
    exact ⟨rfl, rfl⟩
  · rw [if_neg h]
    refine ⟨_, _, rfl, hcw0, pyInt_nonneg (by positivity), le_refl _,
      not_lt.mp h, Or.inl rfl, ?_⟩
    rw [if_pos (not_lt.mp h)]
    exact ⟨rfl, rfl⟩

/-! ### Claim C1 -/

/-- C1: For every valid board specification (squares ≥ 2, positive square
length, dpi ≥ 50, paper size in the fixed table) whose natural board pixel
dimensions `int(squares·square_length_mm·dpi/25.4)` are both ≥ 1,
`_compute_canvas_and_scale` returns a canvas of
`int(paper_w_mm·dpi/25.4) × int(paper_h_mm·dpi/25.4)` pixels and a footprint
obtained by scaling the board so its width equals the canvas width, falling
back to the canvas height as the binding constraint when the scaled height
overflows; the footprint satisfies `scaled_w ≤ canvas_w`, `scaled_h ≤
canvas_h`, with equality on at least one axis. -/
theorem scaler_footprint_fits (sx sy dpi : ℕ) (s pw ph : ℚ) (p : String)
    (hsx : 2 ≤ sx) (hsy : 2 ≤ sy) (hs : 0 < s) (hdpi : 50 ≤ dpi)
    (hp : PAPER_SIZES.lookup p = some (pw, ph))
    (hbw : 1 ≤ board_w_px sx s dpi) (hbh : 1 ≤ board_h_px sy s dpi) :
    ∃ sw sh : ℤ,
      compute_canvas_and_scale sx sy s dpi pw ph =
        Except.ok (pyInt (pw * (dpi : ℚ) / (254 / 10)),
          pyInt (ph * (dpi : ℚ) / (254 / 10)), sw, sh) ∧
      (if pyInt ((board_h_px sy s dpi : ℚ) *
            ((canvas_w_px dpi pw : ℚ) / (board_w_px sx s dpi : ℚ))) ≤
          canvas_h_px dpi ph then
        sw = canvas_w_px dpi pw ∧
          sh = pyInt ((board_h_px sy s dpi : ℚ) *
            ((canvas_w_px dpi pw : ℚ) / (board_w_px sx s dpi : ℚ)))
      else
        sw = pyInt ((board_w_px sx s dpi : ℚ) *
            ((canvas_h_px dpi ph : ℚ) / (board_h_px sy s dpi : ℚ))) ∧
          sh = canvas_h_px dpi ph) ∧
      sw ≤ canvas_w_px dpi pw ∧ sh ≤ canvas_h_px dpi ph ∧
      (sw = canvas_w_px dpi pw ∨ sh = canvas_h_px dpi ph) := by
  have hb := paper_sizes_bounds hp
  have hpw : (0 : ℚ) ≤ pw := by linarith [hb.1]
  have hph : (0 : ℚ) ≤ ph := by linarith [hb.2]
  obtain ⟨sw, sh, heq, h0w, h0h, hlew, hleh, hax, hbr⟩ :=
    compute_canvas_and_scale_spec hpw hph hbw hbh
  have hcw : canvas_w_px dpi pw = pyInt (pw * (dpi : ℚ) / (254 / 10)) := by
    unfold canvas_w_px px_per_mm
    congr 1
    ring
  have hch : canvas_h_px dpi ph = pyInt (ph * (dpi : ℚ) / (254 / 10)) := by
    unfold canvas_h_px px_per_mm
    congr 1
    ring
  exact ⟨sw, sh, by rw [← hcw, ← hch]; exact heq, hbr, hlew, hleh, hax⟩

/-- Witness: `scaler_footprint_fits` at an 8×6, 20 mm, 72 dpi, A4 board. -/
theorem scaler_footprint_fits_witness :
    (2 ≤ 8 ∧ 2 ≤ 6 ∧ (0 : ℚ) < 20 ∧ 50 ≤ 72 ∧
      PAPER_SIZES.lookup "A4" = some (210, 297) ∧
      1 ≤ board_w_px 8 20 72 ∧ 1 ≤ board_h_px 6 20 72) ∧
    (∃ sw sh : ℤ,
      compute_canvas_and_scale 8 6 20 72 210 297 =
        Except.ok (pyInt (210 * ((72 : ℕ) : ℚ) / (254 / 10)),
          pyInt (297 * ((72 : ℕ) : ℚ) / (254 / 10)), sw, sh) ∧
      (if pyInt ((board_h_px 6 20 72 : ℚ) *
            ((canvas_w_px 72 210 : ℚ) / (board_w_px 8 20 72 : ℚ))) ≤
          canvas_h_px 72 297 then
        sw = canvas_w_px 72 210 ∧
          sh = pyInt ((board_h_px 6 20 72 : ℚ) *
            ((canvas_w_px 72 210 : ℚ) / (board_w_px 8 20 72 : ℚ)))
      else
        sw = pyInt ((board_w_px 8 20 72 : ℚ) *
            ((canvas_h_px 72 297 : ℚ) / (board_h_px 6 20 72 : ℚ))) ∧
          sh = canvas_h_px 72 297) ∧
      sw ≤ canvas_w_px 72 210 ∧ sh ≤ canvas_h_px 72 297 ∧
      (sw = canvas_w_px 72 210 ∨ sh = canvas_h_px 72 297)) :=
  ⟨⟨by norm_num, by norm_num, by norm_num, by norm_num, by decide,
      by norm_num [board_w_px, px_per_mm, pyInt],
      by norm_num [board_h_px, px_per_mm, pyInt]⟩,
    scaler_footprint_fits 8 6 72 20 210 297 "A4" (by norm_num) (by norm_num)
      (by norm_num) (by norm_num) (by decide)
      (by norm_num [board_w_px, px_per_mm, pyInt])
      (by norm_num [board_h_px, px_per_mm, pyInt])⟩

/-! ### Claim C10 -/

/-- C10: `generate()` is partial over the validator-accepted domain: every
setter accepts `squares_x=8, squares_y=6, square_length_mm=0.01, dpi=50,
paper_size="A4"`, yet `_compute_canvas_and_scale` raises `ZeroDivisionError`
there because the natural board pixel width `int(8·0.01·50/25.4)` is 0; under
the additional precondition that both natural pixel dimensions are ≥ 1
(which the setters do not guarantee) the divisions always succeed. -/
theorem scaler_zero_division_partiality :
    (ExceptOk (set_squares_x (PyValue.int 8)) ∧
      ExceptOk (set_squares_y (PyValue.int 6)) ∧
      ExceptOk (set_square_length_mm (PyValue.float (1 / 100))) ∧
      ExceptOk (set_dpi (PyValue.int 50)) ∧
      ExceptOk (set_paper_size (PyValue.str "A4")) ∧
      compute_canvas_and_scale 8 6 (1 / 100) 50 210 297 =
        Except.error "ZeroDivisionError: division by zero") ∧
    ∀ (sx sy dpi : ℕ) (s pw ph : ℚ),
      1 ≤ board_w_px sx s dpi → 1 ≤ board_h_px sy s dpi →
      ExceptOk (compute_canvas_and_scale sx sy s dpi pw ph) := by
  constructor
  · refine ⟨⟨8, rfl⟩, ⟨6, rfl⟩, ⟨1 / 100, by norm_num [set_square_length_mm]⟩,
      ⟨50, rfl⟩, ⟨"A4", rfl⟩, ?_⟩
    have h0 : board_w_px 8 (1 / 100) 50 = 0 := by
      norm_num [board_w_px, px_per_mm, pyInt]
    simp only [compute_canvas_and_scale]
    rw [if_pos h0]
  · intro sx sy dpi s pw ph hbw hbh
    rw [compute_canvas_and_scale_eq (by omega) (by omega)]
    split
    · exact ⟨_, rfl⟩
    · exact ⟨_, rfl⟩

/-- Witness: the universally quantified safety half of
`scaler_zero_division_partiality` at an 8×6, 20 mm, 72 dpi, A4 board. -/
theorem scaler_zero_division_partiality_witness :
    (1 ≤ board_w_px 8 20 72 ∧ 1 ≤ board_h_px 6 20 72) ∧
    ExceptOk (compute_canvas_and_scale 8 6 20 72 210 297) :=
  ⟨⟨by norm_num [board_w_px, px_per_mm, pyInt],
      by norm_num [board_h_px, px_per_mm, pyInt]⟩,
    scaler_zero_division_partiality.2 8 6 72 20 210 297
      (by norm_num [board_w_px, px_per_mm, pyInt])
      (by norm_num [board_h_px, px_per_mm, pyInt])⟩

/-! ### Claims C2 and C3 -/

/-- The read loop of `_check_images_size` collects exactly the sizes of the
matched entries that are regular files with readable images, in order. -/
theorem read_sizes_eq (entries : List FSEntry) :
    read_sizes entries = valid_sizes entries := by
  induction entries with
  | nil => rfl
  | cons e rest ih =>
    simp only [read_sizes, valid_sizes, List.filterMap_cons]
    by_cases hf : e.is_file
    · rw [if_pos hf, if_pos hf]
      cases himg : e.image with
      | some sz =>
        simp only [valid_sizes] at ih
        rw [ih]
      | none =>
        simp only [valid_sizes] at ih
        rw [ih]
    · rw [if_neg hf, if_neg hf]
      simp only [valid_sizes] at ih
      rw [ih]

/-- On a nonempty glob match whose read sizes are `ref :: rest`,
`_check_images_size` reduces to the mismatch scan. -/
theorem check_images_size_cons_eq {entries : List FSEntry} {ref : ℕ × ℕ}
    {rest : List (ℕ × ℕ)} (hne : entries ≠ [])
    (hvs : valid_sizes entries = ref :: rest) :
    check_images_size entries =
      match (ref :: rest).find? (fun sz => decide (sz ≠ ref)) with
      | some _ => Except.error "Image has different resolution than the reference"
      | none => Except.ok (ref, entries) := by
  unfold check_images_size
  rw [read_sizes_eq, hvs, if_neg (by simp [hne])]

/-- C2: `_check_images_size` raises a hard error iff zero paths match the
glob, zero matched files are read as images, or some read image's size
differs from the first read image's size; non-files and unreadable files are
merely skipped, and on success the first read size is returned as the
reference. -/
theorem check_images_size_error_iff (entries : List FSEntry) :
    ((∃ msg, check_images_size entries = Except.error msg) ↔
      (entries = [] ∨ valid_sizes entries = [] ∨
        ∃ r sz, (valid_sizes entries).head? = some r ∧
          sz ∈ valid_sizes entries ∧ sz ≠ r)) ∧
    ∀ r ps, check_images_size entries = Except.ok (r, ps) →
      (valid_sizes entries).head? = some r := by
  by_cases hemp : entries.isEmpty = true
  · have heq : check_images_size entries =
        Except.error "No images found with the given pattern" := by
      unfold check_images_size
      rw [if_pos hemp]
    refine ⟨⟨fun _ => Or.inl (List.isEmpty_iff.mp hemp), fun _ => ⟨_, heq⟩⟩, ?_⟩
    intro r ps h
    rw [heq] at h
    cases h
  · have hne : entries ≠ [] := fun h => hemp (by simp [h])
    cases hvs : valid_sizes entries with
    | nil =>
      have heq : check_images_size entries =
          Except.error "No valid images found for calibration" := by
        unfold check_images_size
        rw [read_sizes_eq, hvs, if_neg hemp]
      refine ⟨⟨fun _ => Or.inr (Or.inl rfl), fun _ => ⟨_, heq⟩⟩, ?_⟩
      intro r ps h
      rw [heq] at h
      cases h
    | cons ref rest =>
      have heq := check_images_size_cons_eq hne hvs
      cases hf : (ref :: rest).find? (fun sz => decide (sz ≠ ref)) with
      | some sz =>
        rw [hf] at heq
        have hmem := List.mem_of_find?_eq_some hf
        have hp := List.find?_some hf
        rw [decide_eq_true_iff] at hp
        refine ⟨⟨fun _ => Or.inr (Or.inr ⟨ref, sz, rfl, hmem, hp⟩),
          fun _ => ⟨_, heq⟩⟩, ?_⟩
        intro r ps h
        rw [heq] at h
        cases h
      | none =>
        rw [hf] at heq
        have hall := List.find?_eq_none.mp hf
        constructor
        · constructor
          · rintro ⟨msg, h⟩
            rw [heq] at h
            cases h
          · rintro (h | h | ⟨r, sz, hh, hmem, hne'⟩)
            · exact absurd h hne
            · exact (List.cons_ne_nil _ _ h).elim
            · have hr : r = ref := by
                simp only [List.head?_cons, Option.some.injEq] at hh
                exact hh.symm
              subst hr
              exact ((hall sz hmem) (decide_eq_true hne')).elim
        · intro r ps h
          rw [heq] at h
          simp only [Except.ok.injEq, Prod.mk.injEq] at h
          rw [List.head?_cons, h.1]

/-- Witness: `check_images_size_error_iff` applied to a two-image folder with
matching resolutions. -/
theorem check_images_size_error_iff_witness :
    check_images_size [FSEntry.mk "a.png" true (some (640, 480)),
        FSEntry.mk "b.png" true (some (640, 480))] =
      Except.ok ((640, 480),
        [FSEntry.mk "a.png" true (some (640, 480)),
         FSEntry.mk "b.png" true (some (640, 480))]) ∧
    (valid_sizes [FSEntry.mk "a.png" true (some (640, 480)),
        FSEntry.mk "b.png" true (some (640, 480))]).head? = some (640, 480) :=
  ⟨rfl,
    (check_images_size_error_iff
        [FSEntry.mk "a.png" true (some (640, 480)),
         FSEntry.mk "b.png" true (some (640, 480))]).2 (640, 480)
      [FSEntry.mk "a.png" true (some (640, 480)),
       FSEntry.mk "b.png" true (some (640, 480))] rfl⟩

/-- C3 (code bug): on a glob match consisting of a skipped non-file followed
by one valid image, `_check_images_size` succeeds but returns the full
glob-matched list — including the skipped non-file — rather than the
filtered list of valid image paths promised by its docstring and the spec. -/
theorem check_images_size_returns_unfiltered :
    check_images_size [FSEntry.mk "sub" false none,
        FSEntry.mk "a.png" true (some (640, 480))] =
      Except.ok ((640, 480),
        [FSEntry.mk "sub" false none,
         FSEntry.mk "a.png" true (some (640, 480))]) ∧
    valid_entries [FSEntry.mk "sub" false none,
        FSEntry.mk "a.png" true (some (640, 480))] =
      [FSEntry.mk "a.png" true (some (640, 480))] ∧
    [FSEntry.mk "sub" false none, FSEntry.mk "a.png" true (some (640, 480))] ≠
      [FSEntry.mk "a.png" true (some (640, 480))] :=
  ⟨rfl, rfl, by decide⟩

/-! ### Claim C6 -/

/-- C6: `save_calibration_result` raises the run-calibrate-first
`RuntimeError` exactly when no result is held; with a held result it
dispatches purely on the lowercased extension — `.npz`, `.json` and `.txt`
serialize, and any other extension raises a `ValueError` listing the three
accepted extensions. -/
theorem save_calibration_result_dispatch (r : CalibrationResult) (s : String) :
    save_calibration_result none s =
      Except.error (CalibError.runtimeError
        "No calibration data available. Run calibrate() first.") ∧
    (save_calibration_result (some r) s = Except.ok SaveFormat.npz ↔
      py_lower s = ".npz") ∧
    (save_calibration_result (some r) s = Except.ok SaveFormat.json ↔
      py_lower s = ".json") ∧
    (save_calibration_result (some r) s = Except.ok SaveFormat.txt ↔
      py_lower s = ".txt") ∧
    (py_lower s ≠ ".npz" → py_lower s ≠ ".json" → py_lower s ≠ ".txt" →
      save_calibration_result (some r) s =
        Except.error (CalibError.valueError
          ("Unsupported file extension: " ++ py_lower s ++
            ". Use .npz, .json or .txt"))) := by
  refine ⟨rfl, ?_, ?_, ?_, ?_⟩
  · simp only [save_calibration_result]
    split_ifs with h1 h2 h3 <;> simp_all
  · simp only [save_calibration_result]
    split_ifs with h1 h2 h3 <;> simp_all
  · simp only [save_calibration_result]
    split_ifs with h1 h2 h3 <;> simp_all
  · intro hn hj ht
    simp only [save_calibration_result]
    rw [if_neg hn, if_neg hj, if_neg ht]

/-- Witness: `save_calibration_result_dispatch` at a held result and an
unsupported `.xml` extension. -/
theorem save_calibration_result_dispatch_witness :
    save_calibration_result (some example_result) ".xml" =
      Except.error (CalibError.valueError
        ("Unsupported file extension: " ++ py_lower ".xml" ++
          ". Use .npz, .json or .txt")) :=
  (save_calibration_result_dispatch example_result ".xml").2.2.2.2
    (by decide) (by decide) (by decide)

/-! ### Claim C9 -/

/-- C9 (spec-modelled): the hand-eye stage fails with a hard error precisely
when no intrinsic result is held or the pose count differs from the matched
image count; on success the external solver receives the full, untruncated
pose and image sequences (it never truncates or pads). -/
theorem handeye_preconditions (calibration_result : Option CalibrationResult)
    (gripper_poses : List GripperPose) (matched_images : List String)
    (solver : List GripperPose → List String → HandEyeTransform) :
    ((∃ e, handeye_calibrate calibration_result gripper_poses matched_images
        solver = Except.error e) ↔
      (calibration_result = none ∨
        gripper_poses.length ≠ matched_images.length)) ∧
    ∀ rt, handeye_calibrate calibration_result gripper_poses matched_images
        solver = Except.ok rt → rt = solver gripper_poses matched_images := by
  cases calibration_result with
  | none =>
    refine ⟨⟨fun _ => Or.inl rfl, fun _ => ⟨_, rfl⟩⟩, ?_⟩
    intro rt h
    cases h
  | some r =>
    by_cases hlen : gripper_poses.length = matched_images.length
    · constructor
      · constructor
        · rintro ⟨e, h⟩
          simp only [handeye_calibrate, if_pos hlen] at h
          cases h
        · rintro (h | h)
          · cases h
          · exact absurd hlen h
      · intro rt h
        simp only [handeye_calibrate, if_pos hlen] at h
        injection h with h'
        exact h'.symm
    · constructor
      · constructor
        · intro _
          exact Or.inr hlen
        · intro _
          refine ⟨CalibError.valueError
            "Number of gripper poses must match number of matched images", ?_⟩
          simp only [handeye_calibrate, if_neg hlen]
      · intro rt h
        simp only [handeye_calibrate, if_neg hlen] at h
        cases h

/-- Witness: `handeye_preconditions` with a held result and matching empty
sequences; the solver output is passed through unchanged. -/
theorem handeye_preconditions_witness :
    (([], []) : HandEyeTransform) =
      (fun (_ : List GripperPose) (_ : List String) =>
        (([], []) : HandEyeTransform)) [] [] :=
  (handeye_preconditions (some example_result) [] []
    (fun _ _ => ([], []))).2 ([], []) rfl

/-! ### Claim C7 -/

theorem set_squares_x_ok_iff (v : PyValue) (n : ℤ) :
    set_squares_x v = Except.ok n ↔ v = PyValue.int n ∧ 2 ≤ n := by
  cases v with
  | int m =>
    by_cases h : m < 2 <;> simp [set_squares_x, h] <;> omega
  | float q => simp [set_squares_x]
  | str t => simp [set_squares_x]

theorem set_squares_y_ok_iff (v : PyValue) (n : ℤ) :
    set_squares_y v = Except.ok n ↔ v = PyValue.int n ∧ 2 ≤ n := by
  cases v with
  | int m =>
    by_cases h : m < 2 <;> simp [set_squares_y, h] <;> omega
  | float q => simp [set_squares_y]
  | str t => simp [set_squares_y]

theorem set_dpi_ok_iff (v : PyValue) (n : ℤ) :
    set_dpi v = Except.ok n ↔ v = PyValue.int n ∧ 50 ≤ n := by
  cases v with
  | int m =>
    by_cases h : m < 50 <;> simp [set_dpi, h] <;> omega
  | float q => simp [set_dpi]
  | str t => simp [set_dpi]

theorem set_square_length_mm_ok_iff (v : PyValue) (q : ℚ) :
    set_square_length_mm v = Except.ok q ↔ v.as_float = some q ∧ 0 < q := by
  cases v with
  | int m =>
    by_cases h : m ≤ 0
    · simp only [set_square_length_mm, if_pos h, PyValue.as_float,
        Option.some.injEq]
      constructor
      · intro hh
        cases hh
      · rintro ⟨rfl, hq⟩
        exact absurd (show (0 : ℤ) < m by exact_mod_cast hq) (not_lt.mpr h)
    · simp only [set_square_length_mm, if_neg h, PyValue.as_float,
        Option.some.injEq, Except.ok.injEq]
      constructor
      · rintro rfl
        exact ⟨rfl, by exact_mod_cast not_le.mp h⟩
      · rintro ⟨rfl, _⟩
        rfl
  | float x =>
    by_cases h : x ≤ 0
    · simp only [set_square_length_mm, if_pos h, PyValue.as_float,
        Option.some.injEq]
      constructor
      · intro hh
        cases hh
      · rintro ⟨rfl, hq⟩
        exact absurd hq (not_lt.mpr h)
    · simp only [set_square_length_mm, if_neg h, PyValue.as_float,
        Option.some.injEq, Except.ok.injEq]
      constructor
      · rintro rfl
        exact ⟨rfl, not_le.mp h⟩
      · rintro ⟨rfl, _⟩
        rfl
  | str t => simp [set_square_length_mm, PyValue.as_float]

theorem set_marker_length_mm_ok_iff (v : PyValue) (q : ℚ) :
    set_marker_length_mm v = Except.ok q ↔ v.as_float = some q ∧ 0 < q := by
  cases v with
  | int m =>
    by_cases h : m ≤ 0
    · simp only [set_marker_length_mm, if_pos h, PyValue.as_float,
        Option.some.injEq]
      constructor
      · intro hh
        cases hh
      · rintro ⟨rfl, hq⟩
        exact absurd (show (0 : ℤ) < m by exact_mod_cast hq) (not_lt.mpr h)
    · simp only [set_marker_length_mm, if_neg h, PyValue.as_float,
        Option.some.injEq, Except.ok.injEq]
      constructor
      · rintro rfl
        exact ⟨rfl, by exact_mod_cast not_le.mp h⟩
      · rintro ⟨rfl, _⟩
        rfl
  | float x =>
    by_cases h : x ≤ 0
    · simp only [set_marker_length_mm, if_pos h, PyValue.as_float,
        Option.some.injEq]
      constructor
      · intro hh
        cases hh
      · rintro ⟨rfl, hq⟩
        exact absurd hq (not_lt.mpr h)
    · simp only [set_marker_length_mm, if_neg h, PyValue.as_float,
        Option.some.injEq, Except.ok.injEq]
      constructor
      · rintro rfl
        exact ⟨rfl, not_le.mp h⟩
      · rintro ⟨rfl, _⟩
        rfl
  | str t => simp [set_marker_length_mm, PyValue.as_float]

theorem set_marker_length_ratio_ok_iff (v : PyValue) (q : ℚ) :
    set_marker_length_ratio v = Except.ok q ↔
      v.as_float = some q ∧ 0 < q ∧ q ≤ 1 := by
  cases v with
  | int m =>
    by_cases h : 0 < m ∧ m ≤ 1
    · simp only [set_marker_length_ratio, if_pos h, PyValue.as_float,
        Option.some.injEq, Except.ok.injEq]
      constructor
      · rintro rfl
        exact ⟨rfl, by exact_mod_cast h.1, by exact_mod_cast h.2⟩
      · rintro ⟨rfl, _, _⟩
        rfl
    · simp only [set_marker_length_ratio, if_neg h, PyValue.as_float,
        Option.some.injEq]
      constructor
      · intro hh
        cases hh
      · rintro ⟨rfl, h1, h2⟩
        exact absurd ⟨by exact_mod_cast h1, by exact_mod_cast h2⟩ h
  | float x =>
    by_cases h : 0 < x ∧ x ≤ 1
    · simp only [set_marker_length_ratio, if_pos h, PyValue.as_float,
        Option.some.injEq, Except.ok.injEq]
      constructor
      · rintro rfl
        exact ⟨rfl, h.1, h.2⟩
      · rintro ⟨rfl, _, _⟩
        rfl
    · simp only [set_marker_length_ratio, if_neg h, PyValue.as_float,
        Option.some.injEq]
      constructor
      · intro hh
        cases hh
      · rintro ⟨rfl, h1, h2⟩
        exact absurd ⟨h1, h2⟩ h
  | str t => simp [set_marker_length_ratio, PyValue.as_float]

theorem set_paper_size_ok_iff (v : PyValue) (t : String) :
    set_paper_size v = Except.ok t ↔
      v = PyValue.str t ∧ (PAPER_SIZES.lookup t).isSome := by
  cases v with
  | int m => simp [set_paper_size]
  | float q => simp [set_paper_size]
  | str u =>
    by_cases h : (PAPER_SIZES.lookup u).isSome
    · simp only [set_paper_size, if_pos h, Except.ok.injEq, PyValue.str.injEq]
      constructor
      · rintro rfl
        exact ⟨rfl, h⟩
      · rintro ⟨rfl, _⟩
        rfl
    · simp only [set_paper_size, if_neg h, PyValue.str.injEq]
      constructor
      · intro hh
        cases hh
      · rintro ⟨rfl, hl⟩
        exact absurd hl h

theorem set_aruco_dict_name_ok_iff (v : PyValue) (t : String) :
    set_aruco_dict_name v = Except.ok t ↔
      v = PyValue.str t ∧ t ∈ ARUCO_DICTS := by
  cases v with
  | int m => simp [set_aruco_dict_name]
  | float q => simp [set_aruco_dict_name]
  | str u =>
    by_cases h : u ∈ ARUCO_DICTS
    · simp only [set_aruco_dict_name, if_pos h, Except.ok.injEq,
        PyValue.str.injEq]
      constructor
      · rintro rfl
        exact ⟨rfl, h⟩
      · rintro ⟨rfl, _⟩
        rfl
    · simp only [set_aruco_dict_name, if_neg h, PyValue.str.injEq]
      constructor
      · intro hh
        cases hh
      · rintro ⟨rfl, hl⟩
        exact absurd hl h

theorem exceptOk_bind {α β : Type} (x : Except String α)
    (f : α → Except String β) :
    ExceptOk (x >>= f) ↔ ∃ a, x = Except.ok a ∧ ExceptOk (f a) := by
  cases x with
  | error e => simp [ExceptOk, Bind.bind, Except.bind]
  | ok a => simp [ExceptOk, Bind.bind, Except.bind]

theorem exceptOk_pure {α : Type} (a : α) :
    ExceptOk (pure a : Except String α) :=
  ⟨a, rfl⟩

theorem charuco_construct_ok_iff (a b c m d p n : PyValue) :
    ExceptOk (CharucoBoard.construct a b c m d p n) ↔
      CharucoBoard.spec_domain a b c m d p n := by
  unfold CharucoBoard.construct CharucoBoard.spec_domain int_ge
    positive_number paper_in_table dict_in_table
  simp only [exceptOk_bind, set_squares_x_ok_iff, set_squares_y_ok_iff,
    set_square_length_mm_ok_iff, set_dpi_ok_iff, set_paper_size_ok_iff,
    set_aruco_dict_name_ok_iff, set_marker_length_mm_ok_iff]
  constructor
  · rintro ⟨sx, ⟨ha, h2⟩, sy, ⟨hb, h3⟩, sl, ⟨hc, h4⟩, dd, ⟨hd, h5⟩, ps,
      ⟨hp, h6⟩, dn, ⟨hn, h7⟩, ml, ⟨hm, h8⟩, -⟩
    exact ⟨⟨sx, ha, h2⟩, ⟨sy, hb, h3⟩, ⟨sl, hc, h4⟩, ⟨ml, hm, h8⟩,
      ⟨dd, hd, h5⟩, ⟨ps, hp, h6⟩, ⟨dn, hn, h7⟩⟩
  · rintro ⟨⟨sx, ha, h2⟩, ⟨sy, hb, h3⟩, ⟨sl, hc, h4⟩, ⟨ml, hm, h8⟩,
      ⟨dd, hd, h5⟩, ⟨ps, hp, h6⟩, ⟨dn, hn, h7⟩⟩
    exact ⟨sx, ⟨ha, h2⟩, sy, ⟨hb, h3⟩, sl, ⟨hc, h4⟩, dd, ⟨hd, h5⟩, ps,
      ⟨hp, h6⟩, dn, ⟨hn, h7⟩, ml, ⟨hm, h8⟩, exceptOk_pure _⟩

theorem aruco_construct_ok_iff (a b c r d p n : PyValue) :
    ExceptOk (ArucoBoard.construct a b c r d p n) ↔
      ArucoBoard.spec_domain a b c r d p n := by
  unfold ArucoBoard.construct ArucoBoard.spec_domain int_ge
    positive_number ratio_in_unit paper_in_table dict_in_table
  simp only [exceptOk_bind, set_squares_x_ok_iff, set_squares_y_ok_iff,
    set_square_length_mm_ok_iff, set_dpi_ok_iff, set_paper_size_ok_iff,
    set_aruco_dict_name_ok_iff, set_marker_length_ratio_ok_iff]
  constructor
  · rintro ⟨sx, ⟨ha, h2⟩, sy, ⟨hb, h3⟩, sl, ⟨hc, h4⟩, dd, ⟨hd, h5⟩, ps,
      ⟨hp, h6⟩, dn, ⟨hn, h7⟩, rr, ⟨hr, h8, h9⟩, -⟩
    exact ⟨⟨sx, ha, h2⟩, ⟨sy, hb, h3⟩, ⟨sl, hc, h4⟩, ⟨rr, hr, h8, h9⟩,
      ⟨dd, hd, h5⟩, ⟨ps, hp, h6⟩, ⟨dn, hn, h7⟩⟩
  · rintro ⟨⟨sx, ha, h2⟩, ⟨sy, hb, h3⟩, ⟨sl, hc, h4⟩, ⟨rr, hr, h8, h9⟩,
      ⟨dd, hd, h5⟩, ⟨ps, hp, h6⟩, ⟨dn, hn, h7⟩⟩
    exact ⟨sx, ⟨ha, h2⟩, sy, ⟨hb, h3⟩, sl, ⟨hc, h4⟩, dd, ⟨hd, h5⟩, ps,
      ⟨hp, h6⟩, dn, ⟨hn, h7⟩, rr, ⟨hr, h8, h9⟩, exceptOk_pure _⟩

/-- C7: board construction (running every validating setter) succeeds iff
every field is in-domain — integer grid dimensions ≥ 2, positive
square/marker lengths, integer dpi ≥ 50, paper format and aruco dictionary
name in their fixed tables, marker ratio strictly within (0, 1] — any single
out-of-domain value raises a ValueError before any rendering, and accepted
values are stored exactly as given (never silently clamped). -/
theorem board_construction_validation :
    (∀ a b c m d p n : PyValue,
      ExceptOk (CharucoBoard.construct a b c m d p n) ↔
        CharucoBoard.spec_domain a b c m d p n) ∧
    (∀ a b c r d p n : PyValue,
      ExceptOk (ArucoBoard.construct a b c r d p n) ↔
        ArucoBoard.spec_domain a b c r d p n) ∧
    (∀ v k, set_squares_x v = Except.ok k → v = PyValue.int k) ∧
    (∀ v k, set_squares_y v = Except.ok k → v = PyValue.int k) ∧
    (∀ v k, set_dpi v = Except.ok k → v = PyValue.int k) ∧
    (∀ v q, set_square_length_mm v = Except.ok q → v.as_float = some q) ∧
    (∀ v q, set_marker_length_mm v = Except.ok q → v.as_float = some q) ∧
    (∀ v q, set_marker_length_ratio v = Except.ok q → v.as_float = some q) ∧
    (∀ v t, set_paper_size v = Except.ok t → v = PyValue.str t) ∧
    (∀ v t, set_aruco_dict_name v = Except.ok t → v = PyValue.str t) :=
  ⟨charuco_construct_ok_iff, aruco_construct_ok_iff,
    fun v k h => ((set_squares_x_ok_iff v k).mp h).1,
    fun v k h => ((set_squares_y_ok_iff v k).mp h).1,
    fun v k h => ((set_dpi_ok_iff v k).mp h).1,
    fun v q h => ((set_square_length_mm_ok_iff v q).mp h).1,
    fun v q h => ((set_marker_length_mm_ok_iff v q).mp h).1,
    fun v q h => ((set_marker_length_ratio_ok_iff v q).mp h).1,
    fun v t h => ((set_paper_size_ok_iff v t).mp h).1,
    fun v t h => ((set_aruco_dict_name_ok_iff v t).mp h).1⟩

/-- Witness: `board_construction_validation` turns the successful
construction of the test suite's 7×5 charuco board into its domain facts. -/
theorem board_construction_validation_witness :
    CharucoBoard.spec_domain (PyValue.int 7) (PyValue.int 5) (PyValue.int 20)
      (PyValue.int 15) (PyValue.int 72) (PyValue.str "A4")
      (PyValue.str "5x5_250") :=
  (board_construction_validation.1 (PyValue.int 7) (PyValue.int 5)
    (PyValue.int 20) (PyValue.int 15) (PyValue.int 72) (PyValue.str "A4")
    (PyValue.str "5x5_250")).mp ⟨_, rfl⟩

/-! ### Claim C4 -/

/-- C4: in asymmetric mode the exact center abscissae of odd rows are offset
by exactly half a column width `(width/squares_x)/2` relative to even rows
(these are the values the code truncates to pixels); every drawn circle
carries radius `int(0.25·min(width/squares_x, height/squares_y))`; and a
circle is drawn iff its truncated center lies inside the canvas bounds —
out-of-bounds circles are skipped entirely, never clipped. -/
theorem circle_grid_asymmetric_lattice (squares_x squares_y : ℕ) (w h : ℤ)
    (hsx : 2 ≤ squares_x) (hsy : 2 ≤ squares_y) :
    (∀ x y0 y1 : ℕ, y0 % 2 = 0 → y1 % 2 = 1 →
      circle_center_x true squares_x w x y1 =
        circle_center_x true squares_x w x y0 +
          ((w : ℚ) / (squares_x : ℚ)) / 2) ∧
    (∀ c ∈ CircleGridBoard.circles true squares_x squares_y w h,
      c.2.2 = circle_radius squares_x squares_y w h ∧
      0 ≤ c.1 ∧ c.1 < w ∧ 0 ≤ c.2.1 ∧ c.2.1 < h) ∧
    (∀ x y : ℕ, x < squares_x → y < squares_y →
      (0 ≤ pyInt (circle_center_x true squares_x w x y) ∧
        pyInt (circle_center_x true squares_x w x y) < w ∧
        0 ≤ pyInt (circle_center_y squares_y h y) ∧
        pyInt (circle_center_y squares_y h y) < h) →
      (pyInt (circle_center_x true squares_x w x y),
        pyInt (circle_center_y squares_y h y),
        circle_radius squares_x squares_y w h) ∈
          CircleGridBoard.circles true squares_x squares_y w h) := by
  refine ⟨?_, ?_, ?_⟩
  · intro x y0 y1 h0 h1
    simp only [circle_center_x, if_true, h0, h1, Nat.cast_one, Nat.cast_zero]
    have hsq : ((squares_x : ℚ)) ≠ 0 := by
      have : (0 : ℕ) < squares_x := by omega
      exact_mod_cast this.ne.symm -- placeholder
    field_simp
    ring
  · intro c hc
    simp only [CircleGridBoard.circles, List.mem_flatMap, List.mem_filterMap,
      List.mem_range] at hc
    obtain ⟨y, hy, x, hx, hcx⟩ := hc
    split at hcx
    next hg =>
      cases hcx
      exact ⟨rfl, hg.1, hg.2.1, hg.2.2.1, hg.2.2.2⟩
    next => cases hcx
  · intro x y hx hy hbnd
    simp only [CircleGridBoard.circles, List.mem_flatMap, List.mem_filterMap,
      List.mem_range]
    refine ⟨y, hy, x, hx, ?_⟩
    rw [if_pos hbnd]

/-- Witness: `circle_grid_asymmetric_lattice` on a 4×3 asymmetric grid at a
400×300 footprint: row 1 is offset half a column right of row 0. -/
theorem circle_grid_asymmetric_lattice_witness :
    circle_center_x true 4 400 0 1 =
      circle_center_x true 4 400 0 0 + ((400 : ℚ) / (4 : ℚ)) / 2 :=
  (circle_grid_asymmetric_lattice 4 3 400 300 (by norm_num)
    (by norm_num)).1 0 0 1 rfl rfl

/-! ### Claim C5 -/

theorem int_floordiv_two_bounds {a : ℤ} (ha : 0 ≤ a) :
    0 ≤ int_floordiv a 2 ∧ int_floordiv a 2 ≤ a := by
  unfold int_floordiv
  have haQ : (0 : ℚ) ≤ (a : ℚ) := by exact_mod_cast ha
  constructor
  · exact Int.floor_nonneg.mpr (by positivity)
  · calc ⌊(a : ℚ) / 2⌋ ≤ ⌊(a : ℚ)⌋ := Int.floor_le_floor (by linarith)
      _ = a := Int.floor_intCast a

/-- C5: whenever `generate()` succeeds, the board footprint is embedded at
the integer offsets `offset_x = (canvas_w − board_w)//2` and
`offset_y = (canvas_h − board_h)//2`, computed independently per axis; the
whole footprint lies inside the canvas bounds, and every canvas pixel
outside the embedded rectangle remains white (255). -/
theorem generate_centers_board (gen_board : ℤ → ℤ → (ℤ → ℤ → ℕ))
    (sx sy dpi : ℕ) (s pw ph : ℚ) (p : String)
    (hp : PAPER_SIZES.lookup p = some (pw, ph))
    (hbw : 1 ≤ board_w_px sx s dpi) (hbh : 1 ≤ board_h_px sy s dpi) :
    ∃ (cw ch sw sh : ℤ) (pix : ℤ → ℤ → ℕ),
      compute_canvas_and_scale sx sy s dpi pw ph =
        Except.ok (cw, ch, sw, sh) ∧
      CalibrationBoard.generate gen_board sx sy s dpi pw ph =
        Except.ok (cw, ch, pix) ∧
      0 ≤ int_floordiv (cw - sw) 2 ∧ int_floordiv (cw - sw) 2 + sw ≤ cw ∧
      0 ≤ int_floordiv (ch - sh) 2 ∧ int_floordiv (ch - sh) 2 + sh ≤ ch ∧
      (∀ i j : ℤ,
        ¬(int_floordiv (ch - sh) 2 ≤ i ∧ i < int_floordiv (ch - sh) 2 + sh ∧
          int_floordiv (cw - sw) 2 ≤ j ∧ j < int_floordiv (cw - sw) 2 + sw) →
        pix i j = 255) := by
  have hb := paper_sizes_bounds hp
  have hpw : (0 : ℚ) ≤ pw := by linarith [hb.1]
  have hph : (0 : ℚ) ≤ ph := by linarith [hb.2]
  obtain ⟨sw, sh, heq, h0w, h0h, hlew, hleh, -, -⟩ :=
    compute_canvas_and_scale_spec hpw hph hbw hbh
  have hgen : CalibrationBoard.generate gen_board sx sy s dpi pw ph =
      Except.ok (canvas_w_px dpi pw, canvas_h_px dpi ph, fun i j =>
        if int_floordiv (canvas_h_px dpi ph - sh) 2 ≤ i ∧
            i < int_floordiv (canvas_h_px dpi ph - sh) 2 + sh ∧
            int_floordiv (canvas_w_px dpi pw - sw) 2 ≤ j ∧
            j < int_floordiv (canvas_w_px dpi pw - sw) 2 + sw then
          nearestResize (gen_board sw sh) sw sh sw sh
            (i - int_floordiv (canvas_h_px dpi ph - sh) 2)
            (j - int_floordiv (canvas_w_px dpi pw - sw) 2)
        else 255) := by
    unfold CalibrationBoard.generate
    rw [heq]
  have hwb := int_floordiv_two_bounds (by omega : 0 ≤ canvas_w_px dpi pw - sw)
  have hhb := int_floordiv_two_bounds (by omega : 0 ≤ canvas_h_px dpi ph - sh)
  refine ⟨canvas_w_px dpi pw, canvas_h_px dpi ph, sw, sh, _, heq, hgen,
    hwb.1, by omega, hhb.1, by omega, ?_⟩
  intro i j hng
  simp only [if_neg hng]

/-- Witness: `generate_centers_board` at the test suite checkerboard
(8×6, 20 mm, 72 dpi, A4). -/
theorem generate_centers_board_witness :
    (PAPER_SIZES.lookup "A4" = some (210, 297) ∧
      1 ≤ board_w_px 8 20 72 ∧ 1 ≤ board_h_px 6 20 72) ∧
    (∃ (cw ch sw sh : ℤ) (pix : ℤ → ℤ → ℕ),
      compute_canvas_and_scale 8 6 20 72 210 297 =
        Except.ok (cw, ch, sw, sh) ∧
      CalibrationBoard.generate (Checkerboard.generate_board_image 8 6)
          8 6 20 72 210 297 =
        Except.ok (cw, ch, pix) ∧
      0 ≤ int_floordiv (cw - sw) 2 ∧ int_floordiv (cw - sw) 2 + sw ≤ cw ∧
      0 ≤ int_floordiv (ch - sh) 2 ∧ int_floordiv (ch - sh) 2 + sh ≤ ch ∧
      (∀ i j : ℤ,
        ¬(int_floordiv (ch - sh) 2 ≤ i ∧ i < int_floordiv (ch - sh) 2 + sh ∧
          int_floordiv (cw - sw) 2 ≤ j ∧ j < int_floordiv (cw - sw) 2 + sw) →
        pix i j = 255)) :=
  ⟨⟨by decide, by norm_num [board_w_px, px_per_mm, pyInt],
      by norm_num [board_h_px, px_per_mm, pyInt]⟩,
    generate_centers_board (Checkerboard.generate_board_image 8 6)
      8 6 72 20 210 297 "A4" (by decide)
      (by norm_num [board_w_px, px_per_mm, pyInt])
      (by norm_num [board_h_px, px_per_mm, pyInt])⟩

/-! ### Claim C8 -/

theorem px_per_mm_pos {dpi : ℕ} (h : 1 ≤ dpi) : 0 < px_per_mm dpi := by
  unfold px_per_mm
  have : (1 : ℚ) ≤ (dpi : ℚ) := by exact_mod_cast h
  positivity

theorem canvas_w_px_ge {dpi : ℕ} {pw : ℚ} (hdpi : 50 ≤ dpi) (hpw : 148 ≤ pw) :
    291 ≤ canvas_w_px dpi pw := by
  unfold canvas_w_px
  rw [pyInt_of_nonneg (mul_nonneg (by linarith) (px_per_mm_nonneg dpi))]
  apply Int.le_floor.mpr
  unfold px_per_mm
  have hd : (50 : ℚ) ≤ (dpi : ℚ) := by exact_mod_cast hdpi
  have hprod : (7400 : ℚ) ≤ pw * dpi := by nlinarith
  push_cast
  rw [mul_div_assoc']
  rw [le_div_iff₀ (by norm_num)]
  linarith

theorem canvas_h_px_ge {dpi : ℕ} {ph : ℚ} (hdpi : 50 ≤ dpi) (hph : 210 ≤ ph) :
    413 ≤ canvas_h_px dpi ph := by
  unfold canvas_h_px
  rw [pyInt_of_nonneg (mul_nonneg (by linarith) (px_per_mm_nonneg dpi))]
  apply Int.le_floor.mpr
  unfold px_per_mm
  have hd : (50 : ℚ) ≤ (dpi : ℚ) := by exact_mod_cast hdpi
  have hprod : (10500 : ℚ) ≤ ph * dpi := by nlinarith
  push_cast
  rw [mul_div_assoc']
  rw [le_div_iff₀ (by norm_num)]
  linarith

/-- For an 8:6 grid, the truncated pixel width never exceeds twice the
truncated pixel height (as soon as the height is at least one pixel). -/
theorem floor_8u_le_two_floor_6u {u : ℚ} (h1 : 1 ≤ ⌊6 * u⌋) :
    ⌊8 * u⌋ ≤ 2 * ⌊6 * u⌋ := by
  have h6 : 6 * u < (⌊6 * u⌋ : ℚ) + 1 := Int.lt_floor_add_one (6 * u)
  have haQ : (1 : ℚ) ≤ (⌊6 * u⌋ : ℚ) := by exact_mod_cast h1
  have h8 : 8 * u < 2 * (⌊6 * u⌋ : ℚ) + 1 := by linarith
  have : ⌊8 * u⌋ < 2 * ⌊6 * u⌋ + 1 := Int.floor_lt.mpr (by push_cast; linarith)
  omega

theorem board_w_px_8_eq (s : ℚ) (dpi : ℕ) (hu : 0 ≤ s * px_per_mm dpi) :
    board_w_px 8 s dpi = ⌊8 * (s * px_per_mm dpi)⌋ := by
  unfold board_w_px
  rw [pyInt_of_nonneg (by push_cast; nlinarith)]
  congr 1
  push_cast
  ring

theorem board_h_px_6_eq (s : ℚ) (dpi : ℕ) (hu : 0 ≤ s * px_per_mm dpi) :
    board_h_px 6 s dpi = ⌊6 * (s * px_per_mm dpi)⌋ := by
  unfold board_h_px
  rw [pyInt_of_nonneg (by push_cast; nlinarith)]
  congr 1
  push_cast
  ring

/-- For an 8×6 checkerboard over any paper format, the scaled footprint has
width at least 1 pixel and height at least 6 pixels. -/
theorem checker_scaled_dims {dpi : ℕ} {s pw ph : ℚ}
    (hs : 0 < s) (hdpi : 50 ≤ dpi) (hpw : 148 ≤ pw) (hph : 210 ≤ ph)
    (hbw : 1 ≤ board_w_px 8 s dpi) (hbh : 1 ≤ board_h_px 6 s dpi) :
    ∃ sw sh : ℤ,
      compute_canvas_and_scale 8 6 s dpi pw ph =
        Except.ok (canvas_w_px dpi pw, canvas_h_px dpi ph, sw, sh) ∧
      1 ≤ sw ∧ 6 ≤ sh ∧
      sw ≤ canvas_w_px dpi pw ∧ sh ≤ canvas_h_px dpi ph := by
  obtain ⟨sw, sh, heq, h0w, h0h, hlew, hleh, hax, hbr⟩ :=
    @compute_canvas_and_scale_spec 8 6 dpi s pw ph
      (by linarith : (0 : ℚ) ≤ pw) (by linarith : (0 : ℚ) ≤ ph) hbw hbh
  have hppm : 0 < px_per_mm dpi := px_per_mm_pos (by omega)
  have hu : 0 ≤ s * px_per_mm dpi := le_of_lt (mul_pos hs hppm)
  have hbwe := board_w_px_8_eq s dpi hu
  have hbhe := board_h_px_6_eq s dpi hu
  have h2bh : board_w_px 8 s dpi ≤ 2 * board_h_px 6 s dpi := by
    rw [hbwe, hbhe]
    exact floor_8u_le_two_floor_6u (by rw [← hbhe]; exact hbh)
  have hbhle : board_h_px 6 s dpi ≤ board_w_px 8 s dpi := by
    rw [hbwe, hbhe]
    exact Int.floor_le_floor (by linarith)
  have hcw291 := canvas_w_px_ge hdpi hpw
  have hch413 := canvas_h_px_ge hdpi hph
  have hbwQ : (0 : ℚ) < (board_w_px 8 s dpi : ℚ) := by
    exact_mod_cast lt_of_lt_of_le one_pos hbw
  have hbhQ : (0 : ℚ) < (board_h_px 6 s dpi : ℚ) := by
    exact_mod_cast lt_of_lt_of_le one_pos hbh
  have hcwQ : (291 : ℚ) ≤ (canvas_w_px dpi pw : ℚ) := by exact_mod_cast hcw291
  have hchQ : (413 : ℚ) ≤ (canvas_h_px dpi ph : ℚ) := by exact_mod_cast hch413
  have h2bhQ : (board_w_px 8 s dpi : ℚ) ≤ 2 * (board_h_px 6 s dpi : ℚ) := by
    exact_mod_cast h2bh
  have hbhleQ : (board_h_px 6 s dpi : ℚ) ≤ (board_w_px 8 s dpi : ℚ) := by
    exact_mod_cast hbhle
  refine ⟨sw, sh, heq, ?_, ?_, hlew, hleh⟩
  · -- 1 ≤ sw in both branches
    split at hbr
    · omega
    · obtain ⟨hsw, hsh⟩ := hbr
      have key : (canvas_h_px dpi ph : ℚ) ≤
          (board_w_px 8 s dpi : ℚ) *
            ((canvas_h_px dpi ph : ℚ) / (board_h_px 6 s dpi : ℚ)) := by
        rw [mul_div_assoc', le_div_iff₀ hbhQ]
        nlinarith
      have : canvas_h_px dpi ph ≤ pyInt ((board_w_px 8 s dpi : ℚ) *
          ((canvas_h_px dpi ph : ℚ) / (board_h_px 6 s dpi : ℚ))) := by
        rw [pyInt_of_nonneg (by positivity)]
        exact Int.le_floor.mpr (by linarith)
      omega
  · -- 6 ≤ sh in both branches
    split at hbr
    · obtain ⟨hsw, hsh⟩ := hbr
      have key : (canvas_w_px dpi pw : ℚ) / 2 ≤
          (board_h_px 6 s dpi : ℚ) *
            ((canvas_w_px dpi pw : ℚ) / (board_w_px 8 s dpi : ℚ)) := by
        rw [mul_div_assoc', div_le_div_iff₀ (by norm_num) hbwQ]
        nlinarith
      have : (145 : ℤ) ≤ pyInt ((board_h_px 6 s dpi : ℚ) *
          ((canvas_w_px dpi pw : ℚ) / (board_w_px 8 s dpi : ℚ))) := by
        rw [pyInt_of_nonneg (by positivity)]
        exact Int.le_floor.mpr (by push_cast; linarith)
      omega
    · omega

theorem nearestResize_at_zero (src : ℤ → ℤ → ℕ) (src_w src_h dst_w dst_h : ℤ)
    (hw : 1 ≤ src_w) (hh : 1 ≤ src_h) :
    nearestResize src src_w src_h dst_w dst_h 0 0 = src 0 0 := by
  unfold nearestResize
  norm_num
  rw [min_eq_left (by omega), min_eq_left (by omega)]

theorem nearestResize_diag (src : ℤ → ℤ → ℕ) (sw sh : ℤ) (i : ℤ)
    (hi0 : 0 ≤ i) (hi : i < sh) (hsw : 1 ≤ sw) :
    nearestResize src sw sh sw sh i 0 = src i 0 := by
  unfold nearestResize
  have hshQ : (0 : ℚ) < (sh : ℚ) := by
    exact_mod_cast lt_of_le_of_lt hi0 hi
  have hrow : (i : ℚ) * (sh : ℚ) / (sh : ℚ) = (i : ℚ) := by
    field_simp
  rw [hrow, Int.floor_intCast, min_eq_left (by omega)]
  norm_num
  rw [min_eq_left (by omega)]

theorem checker_image_row_one {sw sh i0 : ℤ}
    (hlo : sh ≤ 6 * i0) (hhi : 6 * i0 < 2 * sh) (hsw : 1 ≤ sw) :
    Checkerboard.generate_board_image 8 6 sw sh i0 0 = 255 := by
  have hsh1 : (0 : ℤ) < sh := by omega
  have hshQ : (0 : ℚ) < (sh : ℚ) := by exact_mod_cast hsh1
  unfold Checkerboard.generate_board_image nearestResize
  push_cast
  have hrow : ⌊(i0 : ℚ) * 6 / (sh : ℚ)⌋ = 1 := by
    rw [Int.floor_eq_iff]
    constructor
    · rw [le_div_iff₀ hshQ]
      have hloQ : (sh : ℚ) ≤ 6 * (i0 : ℚ) := by exact_mod_cast hlo
      push_cast
      linarith
    · rw [div_lt_iff₀ hshQ]
      have hhiQ : (6 : ℚ) * (i0 : ℚ) < 2 * (sh : ℚ) := by exact_mod_cast hhi
      push_cast
      linarith
  rw [hrow]
  norm_num [checker_base]

/-- C8 (amended per the `ZeroDivisionError` counterexample): for an 8×6
`Checkerboard` with any valid square length, dpi and paper size whose natural
board pixel dimensions are both ≥ 1, `generate()` returns a single-channel
canvas (one pixel plane) whose set of distinct pixel values is exactly
`{0, 255}`: every pixel is 0 or 255, and both values occur inside the
canvas — nearest-neighbor resampling introduces no intermediate grays. -/
theorem checkerboard_two_values (dpi : ℕ) (s pw ph : ℚ) (p : String)
    (hs : 0 < s) (hdpi : 50 ≤ dpi)
    (hp : PAPER_SIZES.lookup p = some (pw, ph))
    (hbw : 1 ≤ board_w_px 8 s dpi) (hbh : 1 ≤ board_h_px 6 s dpi) :
    ∃ (cw ch : ℤ) (pix : ℤ → ℤ → ℕ),
      Checkerboard.generate 8 6 s dpi pw ph = Except.ok (cw, ch, pix) ∧
      (∀ i j : ℤ, pix i j = 0 ∨ pix i j = 255) ∧
      (∃ i j : ℤ, 0 ≤ i ∧ i < ch ∧ 0 ≤ j ∧ j < cw ∧ pix i j = 0) ∧
      (∃ i j : ℤ, 0 ≤ i ∧ i < ch ∧ 0 ≤ j ∧ j < cw ∧ pix i j = 255) := by
  have hb := paper_sizes_bounds hp
  obtain ⟨sw, sh, heq, hsw1, hsh6, hlew, hleh⟩ :=
    checker_scaled_dims hs hdpi hb.1 hb.2 hbw hbh
  set cw := canvas_w_px dpi pw with hcwd
  set ch := canvas_h_px dpi ph with hchd
  set offx := int_floordiv (cw - sw) 2 with hoffx
  set offy := int_floordiv (ch - sh) 2 with hoffy
  have hxb := int_floordiv_two_bounds (by omega : 0 ≤ cw - sw)
  have hyb := int_floordiv_two_bounds (by omega : 0 ≤ ch - sh)
  rw [← hoffx] at hxb
  rw [← hoffy] at hyb
  have hgen : Checkerboard.generate 8 6 s dpi pw ph =
      Except.ok (cw, ch, fun i j =>
        if offy ≤ i ∧ i < offy + sh ∧ offx ≤ j ∧ j < offx + sw then
          nearestResize (Checkerboard.generate_board_image 8 6 sw sh)
            sw sh sw sh (i - offy) (j - offx)
        else 255) := by
    unfold Checkerboard.generate CalibrationBoard.generate
    rw [heq]
  set i0 := ⌈(sh : ℚ) / 6⌉ with hi0d
  have hle : (sh : ℚ) / 6 ≤ (i0 : ℚ) := Int.le_ceil _
  have hlt : (i0 : ℚ) < (sh : ℚ) / 6 + 1 := Int.ceil_lt_add_one _
  have hA : sh ≤ 6 * i0 := by
    have : (sh : ℚ) ≤ 6 * (i0 : ℚ) := by linarith
    exact_mod_cast this
  have hB : 6 * i0 < 2 * sh := by
    have hsh6Q : (6 : ℚ) ≤ (sh : ℚ) := by exact_mod_cast hsh6
    have : (6 : ℚ) * (i0 : ℚ) < 2 * (sh : ℚ) := by linarith
    exact_mod_cast this
  refine ⟨cw, ch, _, hgen, ?_, ?_, ?_⟩
  · intro i j
    by_cases hg : offy ≤ i ∧ i < offy + sh ∧ offx ≤ j ∧ j < offx + sw
    · simp only [if_pos hg]
      have hcb : ∀ a b : ℤ, checker_base a b = 0 ∨ checker_base a b = 255 := by
        intro a b
        unfold checker_base
        split
        · exact Or.inl rfl
        · exact Or.inr rfl
      simp only [nearestResize, Checkerboard.generate_board_image]
      exact hcb _ _
    · rw [if_neg hg]
      exact Or.inr rfl
  · refine ⟨offy, offx, hyb.1, by omega, hxb.1, by omega, ?_⟩
    simp only [if_pos (show offy ≤ offy ∧ offy < offy + sh ∧ offx ≤ offx ∧
      offx < offx + sw from ⟨le_refl _, by omega, le_refl _, by omega⟩)]
    rw [sub_self, sub_self]
    rw [nearestResize_at_zero _ _ _ _ _ hsw1 (by omega)]
    unfold Checkerboard.generate_board_image
    rw [nearestResize_at_zero checker_base _ _ _ _ (by norm_num) (by norm_num)]
    norm_num [checker_base]
  · refine ⟨offy + i0, offx, by omega, by omega, hxb.1, by omega, ?_⟩
    simp only [if_pos (show offy ≤ offy + i0 ∧ offy + i0 < offy + sh ∧
      offx ≤ offx ∧ offx < offx + sw from
      ⟨by omega, by omega, le_refl _, by omega⟩)]
    rw [add_sub_cancel_left, sub_self]
    rw [nearestResize_diag _ _ _ _ (by omega) (by omega) hsw1]
    exact checker_image_row_one hA hB hsw1

/-- Counterexample to C8 as stated: the setters accept
`square_length_mm = 0.01, dpi = 50, paper_size = "A4"`, but `generate()`
does not return an image there — the natural board pixel width truncates to
0 and the scale computation raises `ZeroDivisionError`. -/
theorem checkerboard_two_values_counterexample :
    ExceptOk (set_square_length_mm (PyValue.float (1 / 100))) ∧
    ExceptOk (set_dpi (PyValue.int 50)) ∧
    PAPER_SIZES.lookup "A4" = some (210, 297) ∧
    ¬ ExceptOk (Checkerboard.generate 8 6 (1 / 100) 50 210 297) := by
  refine ⟨⟨1 / 100, by norm_num [set_square_length_mm]⟩, ⟨50, rfl⟩,
    by decide, ?_⟩
  have h0 : board_w_px 8 (1 / 100) 50 = 0 := by
    norm_num [board_w_px, px_per_mm, pyInt]
  have hc : compute_canvas_and_scale 8 6 (1 / 100) 50 210 297 =
      Except.error "ZeroDivisionError: division by zero" := by
    simp only [compute_canvas_and_scale]
    rw [if_pos h0]
  rintro ⟨a, ha⟩
  unfold Checkerboard.generate CalibrationBoard.generate at ha
  rw [hc] at ha
  cases ha

/-- Witness: `checkerboard_two_values` at the test suite checkerboard
(8×6, 20 mm, 72 dpi, A4). -/
theorem checkerboard_two_values_witness :
    ((0 : ℚ) < 20 ∧ 50 ≤ 72 ∧ 1 ≤ board_w_px 8 20 72 ∧
      1 ≤ board_h_px 6 20 72) ∧
    (∃ (cw ch : ℤ) (pix : ℤ → ℤ → ℕ),
      Checkerboard.generate 8 6 20 72 210 297 = Except.ok (cw, ch, pix) ∧
      (∀ i j : ℤ, pix i j = 0 ∨ pix i j = 255) ∧
      (∃ i j : ℤ, 0 ≤ i ∧ i < ch ∧ 0 ≤ j ∧ j < cw ∧ pix i j = 0) ∧
      (∃ i j : ℤ, 0 ≤ i ∧ i < ch ∧ 0 ≤ j ∧ j < cw ∧ pix i j = 255)) :=
  ⟨⟨by norm_num, by norm_num, by norm_num [board_w_px, px_per_mm, pyInt],
      by norm_num [board_h_px, px_per_mm, pyInt]⟩,
    checkerboard_two_values 72 20 210 297 "A4" (by norm_num) (by norm_num)
      (by decide) (by norm_num [board_w_px, px_per_mm, pyInt])
      (by norm_num [board_h_px, px_per_mm, pyInt])⟩

end RemoteCameraCalibration
